import Mathlib

/-!
Verification of the CubeSat station-keeping control loop.

The development embeds, over ℚ:
* `satellite_components.py` — the `Satellite` orbital-state model, its random
  drift (drift draws become explicit parameters) and correction application;
* `control_algorithm.py` — the `PIDController`;
* `config.py` — the numeric constants used by the loop;
* `main.py` — the per-tick control algorithm of `MainApplication.main_loop`
  and the GUI callbacks that touch control-loop state
  (`_on_apply_target`, `correct_orbit_to_default`, `clear_history`).

The telemetry and history recorders (`telemetry.py`, `history.py`) are not in
the source tree; they are modelled from the spec where noted.
-/

set_option autoImplicit false

namespace CubeSat

/-- `np.clip x lo hi`, i.e. `min hi (max lo x)`. -/
def clip (x lo hi : ℚ) : ℚ := min hi (max lo x)

/-! ### Constants from `config.py` -/

def TARGET_ALTITUDE : ℚ := 8000
def TARGET_INCLINATION : ℚ := 45
def TARGET_ECCENTRICITY : ℚ := 1/5
def ON_COURSE_THRESHOLD : ℚ := 1/10
def TELEMETRY_LOG_MAX_SIZE : ℕ := 1000
def HISTORY_LOG_MAX_SIZE : ℕ := 500
def PID_GAINS_Kp : ℚ := 6/5
def PID_GAINS_Ki : ℚ := 1/10
def PID_GAINS_Kd : ℚ := 1/5

/-! ### `satellite_components.py` -/

/-- The orbital state of `Satellite` (`_altitude`, `_inclination`,
`_eccentricity`).  The mock `_current_location` display vector and
`_is_in_orbit_mode` play no role in the control loop and are not modelled. -/
structure Satellite where
  altitude : ℚ
  inclination : ℚ
  eccentricity : ℚ
deriving DecidableEq

/-- `Satellite.__init__`: stores the three arguments unmodified. -/
def Satellite.init (initial_altitude initial_inclination initial_eccentricity : ℚ) :
    Satellite :=
  { altitude := initial_altitude
    inclination := initial_inclination
    eccentricity := initial_eccentricity }

/-- `Satellite.get_orbital_parameters`. -/
def Satellite.get_orbital_parameters (s : Satellite) : ℚ × ℚ × ℚ :=
  (s.altitude, s.inclination, s.eccentricity)

/-- `Satellite.simulate_orbital_drift`.  The three `np.random.uniform` draws
become the explicit parameters `dAlt ∈ [0.01, 0.05]`, `dInc ∈ [-0.01, 0.01]`,
`dEcc ∈ [-0.001, 0.001]`; no property below needs the ranges, so they are left
unconstrained. -/
def Satellite.simulate_orbital_drift (s : Satellite) (dAlt dInc dEcc : ℚ) : Satellite :=
  { altitude := s.altitude - dAlt
    inclination := clip (s.inclination + dInc) 0 180
    eccentricity := clip (s.eccentricity + dEcc) 0 (99/100) }

/-- `Satellite.apply_orbital_correction`: adds the three components and
re-clamps when the vector has length exactly 3, otherwise does nothing. -/
def Satellite.apply_orbital_correction (s : Satellite) (correction_vector : List ℚ) :
    Satellite :=
  match correction_vector with
  | [a, i, e] =>
      { altitude := s.altitude + a
        inclination := clip (s.inclination + i) 0 180
        eccentricity := clip (s.eccentricity + e) 0 (99/100) }
  | _ => s

/-! ### `control_algorithm.py` -/

/-- A 3-vector of rationals, standing for the `np.array` 3-vectors. -/
structure Vec3 where
  x : ℚ
  y : ℚ
  z : ℚ
deriving DecidableEq

def Vec3.zero : Vec3 := ⟨0, 0, 0⟩

def Vec3.add (a b : Vec3) : Vec3 := ⟨a.x + b.x, a.y + b.y, a.z + b.z⟩

def Vec3.sub (a b : Vec3) : Vec3 := ⟨a.x - b.x, a.y - b.y, a.z - b.z⟩

def Vec3.smul (c : ℚ) (v : Vec3) : Vec3 := ⟨c * v.x, c * v.y, c * v.z⟩

/-- Squared Euclidean norm.  `np.linalg.norm` is the square root of this;
comparisons against a nonnegative threshold are carried out on squares so the
whole development stays in ℚ. -/
def Vec3.normSq (v : Vec3) : ℚ := v.x * v.x + v.y * v.y + v.z * v.z

/-- `correction.tolist()`. -/
def Vec3.toList (v : Vec3) : List ℚ := [v.x, v.y, v.z]

/-- `np.array` applied to a parameter triple. -/
def Vec3.ofParams (p : ℚ × ℚ × ℚ) : Vec3 := ⟨p.1, p.2.1, p.2.2⟩

/-- `PIDController`: gains plus the two internal state vectors. -/
structure PIDController where
  Kp : ℚ
  Ki : ℚ
  Kd : ℚ
  integral : Vec3
  previousError : Vec3
deriving DecidableEq

/-- `PIDController.__init__`: stores the gains, zeroes the state. -/
def PIDController.init (Kp Ki Kd : ℚ) : PIDController :=
  { Kp := Kp, Ki := Ki, Kd := Kd
    integral := Vec3.zero, previousError := Vec3.zero }

/-- `PIDController.compute_correction`: returns the updated controller (the
Python method mutates `self`) together with the correction vector. -/
def PIDController.compute_correction (c : PIDController)
    (target_vector current_vector : Vec3) : PIDController × Vec3 :=
  let error := Vec3.sub target_vector current_vector
  let integral := Vec3.add c.integral error
  let derivative := Vec3.sub error c.previousError
  let correction :=
    Vec3.add (Vec3.add (Vec3.smul c.Kp error) (Vec3.smul c.Ki integral))
      (Vec3.smul c.Kd derivative)
  ({ c with integral := integral, previousError := error }, correction)

/-- `PIDController.reset`: zeroes `_integral` and `_previous_error`. -/
def PIDController.reset (c : PIDController) : PIDController :=
  { c with integral := Vec3.zero, previousError := Vec3.zero }

/-! ### Telemetry and history logs -/

/-- The record logged by `TelemetrySystem.log_status` each tick (the wall-clock
timestamp is not modelled). -/
structure TelemetryEntry where
  current_orbital_params : ℚ × ℚ × ℚ
  target_orbital_params : ℚ × ℚ × ℚ
  correction_vector : Option (List ℚ)
  is_on_course : Bool
deriving DecidableEq

/-- Modelled from the spec: `telemetry.py` (class `TelemetrySystem`) is missing
from the source tree.  Per the spec the telemetry log is a fixed-capacity FIFO
ring buffer of `TelemetryEntry`. -/
structure TelemetrySystem where
  max_log_size : ℕ
  log : List TelemetryEntry
deriving DecidableEq

/-- Modelled from the spec: `TelemetrySystem.log_status` appends one entry;
append beyond capacity evicts the oldest entries. -/
def TelemetrySystem.log_status (t : TelemetrySystem) (e : TelemetryEntry) :
    TelemetrySystem :=
  { t with log := (t.log ++ [e]).drop ((t.log.length + 1) - t.max_log_size) }

/-- Modelled from the spec: `history.py` (class `HistoryRecorder`) is missing
from the source tree.  Per the spec the drift history is a fixed-capacity FIFO
log of entries carrying an altitude delta (the wall-clock timestamp is not
modelled). -/
structure HistoryRecorder where
  max_history_size : ℕ
  drift_history : List ℚ
deriving DecidableEq

/-- Modelled from the spec: `HistoryRecorder.record_drift` appends one entry
with the altitude change of the tick; append beyond capacity evicts the oldest. -/
def HistoryRecorder.record_drift (h : HistoryRecorder) (altitude_change : ℚ) :
    HistoryRecorder :=
  { h with drift_history :=
      ((h.drift_history ++ [altitude_change]).drop
        ((h.drift_history.length + 1) - h.max_history_size)) }

/-- Modelled from the spec: `HistoryRecorder.clear_history` empties the log. -/
def HistoryRecorder.clear_history (h : HistoryRecorder) : HistoryRecorder :=
  { h with drift_history := [] }

/-! ### `main.py`: the control-loop state and the per-tick algorithm -/

/-- The control-loop-relevant fields of `MainApplication` (GUI widgets, plot
deques and the thread machinery are outside the core and not modelled). -/
structure MainApplication where
  target_altitude : ℚ
  target_inclination : ℚ
  target_eccentricity : ℚ
  my_satellite : Satellite
  my_controller : PIDController
  my_telemetry : TelemetrySystem
  my_history : HistoryRecorder
  recording_history : Bool
  correction_count : ℕ
deriving DecidableEq

/-- `MainApplication.__init__`: satellite at the default targets, fresh PID
controller with the configured gains, empty logs, counter at zero. -/
def MainApplication.init : MainApplication :=
  { target_altitude := TARGET_ALTITUDE
    target_inclination := TARGET_INCLINATION
    target_eccentricity := TARGET_ECCENTRICITY
    my_satellite := Satellite.init TARGET_ALTITUDE TARGET_INCLINATION TARGET_ECCENTRICITY
    my_controller := PIDController.init PID_GAINS_Kp PID_GAINS_Ki PID_GAINS_Kd
    my_telemetry := { max_log_size := TELEMETRY_LOG_MAX_SIZE, log := [] }
    my_history := { max_history_size := HISTORY_LOG_MAX_SIZE, drift_history := [] }
    recording_history := false
    correction_count := 0 }

/-- The on-course test of `main_loop`:
`np.linalg.norm(target - current) < ON_COURSE_THRESHOLD`.  Both sides of the
source comparison are nonnegative, so it is equivalent to comparing the squared
norm against the squared threshold, which keeps the test inside ℚ. -/
def is_on_course (target current : Vec3) : Bool :=
  decide (Vec3.normSq (Vec3.sub target current) < ON_COURSE_THRESHOLD * ON_COURSE_THRESHOLD)

/-- The tail of one `main_loop` iteration (history recording and telemetry
logging, `main.py` lines 608-620), applied to the state `app` as it stands
after the drift and correction steps.  `initial_altitude` is the pre-drift
altitude recorded at the top of the tick; `current_params` the post-drift,
pre-correction parameters. -/
def MainApplication.tick_finish (app : MainApplication) (initial_altitude : ℚ)
    (current_params target_params : ℚ × ℚ × ℚ)
    (correction_vector : Option (List ℚ)) (onCourse : Bool) : MainApplication :=
  { app with
    my_history :=
      if app.recording_history then
        app.my_history.record_drift (app.my_satellite.altitude - initial_altitude)
      else app.my_history
    my_telemetry := app.my_telemetry.log_status
      { current_orbital_params := current_params
        target_orbital_params := target_params
        correction_vector := correction_vector
        is_on_course := onCourse } }

/-- One non-paused iteration of `MainApplication.main_loop` (`main.py` lines
592-630): drift, on-course test, optional PID correction with counter
increment, then history recording and telemetry logging.  The three random
drift draws are explicit parameters. -/
def MainApplication.tick (app : MainApplication) (dAlt dInc dEcc : ℚ) : MainApplication :=
  let initial_altitude := app.my_satellite.altitude
  let sat := app.my_satellite.simulate_orbital_drift dAlt dInc dEcc
  let current_params := sat.get_orbital_parameters
  let target_params := (app.target_altitude, app.target_inclination, app.target_eccentricity)
  if is_on_course (Vec3.ofParams target_params) (Vec3.ofParams current_params) then
    MainApplication.tick_finish { app with my_satellite := sat }
      initial_altitude current_params target_params none true
  else
    let r := app.my_controller.compute_correction
      (Vec3.ofParams target_params) (Vec3.ofParams current_params)
    MainApplication.tick_finish
      { app with
        my_controller := r.1
        my_satellite := sat.apply_orbital_correction (Vec3.toList r.2)
        correction_count := app.correction_count + 1 }
      initial_altitude current_params target_params (some (Vec3.toList r.2)) false

/-- `MainApplication._on_apply_target` (slider values become arguments):
updates the target fields, jumps the satellite to the new target through a
correction vector, and resets the PID controller (`self._reset_pid()`). -/
def MainApplication.on_apply_target (app : MainApplication)
    (new_target_altitude new_target_inclination new_target_eccentricity : ℚ) :
    MainApplication :=
  { app with
    target_altitude := new_target_altitude
    target_inclination := new_target_inclination
    target_eccentricity := new_target_eccentricity
    my_satellite := app.my_satellite.apply_orbital_correction
      [new_target_altitude - app.my_satellite.altitude,
       new_target_inclination - app.my_satellite.inclination,
       new_target_eccentricity - app.my_satellite.eccentricity]
    my_controller := app.my_controller.reset }

/-- `MainApplication.correct_orbit_to_default`: jumps the satellite back to the
configured default target, resets the targets, the PID controller, and zeroes
the correction counter. -/
def MainApplication.correct_orbit_to_default (app : MainApplication) : MainApplication :=
  { app with
    my_satellite := app.my_satellite.apply_orbital_correction
      [TARGET_ALTITUDE - app.my_satellite.altitude,
       TARGET_INCLINATION - app.my_satellite.inclination,
       TARGET_ECCENTRICITY - app.my_satellite.eccentricity]
    target_altitude := TARGET_ALTITUDE
    target_inclination := TARGET_INCLINATION
    target_eccentricity := TARGET_ECCENTRICITY
    my_controller := app.my_controller.reset
    correction_count := 0 }

/-- `MainApplication.clear_history`, confirmed branch of the dialog: empties
the drift history and zeroes the correction counter. -/
def MainApplication.clear_history (app : MainApplication) : MainApplication :=
  { app with
    my_history := app.my_history.clear_history
    correction_count := 0 }

/-! ### Operation alphabets for the sequence claims -/

/-- The two `Satellite` mutators of `satellite_components.py`. -/
inductive SatOp where
  | drift (dAlt dInc dEcc : ℚ)
  | correct (correction_vector : List ℚ)
deriving DecidableEq

def SatOp.apply (op : SatOp) (s : Satellite) : Satellite :=
  match op with
  | .drift dAlt dInc dEcc => s.simulate_orbital_drift dAlt dInc dEcc
  | .correct cv => s.apply_orbital_correction cv

/-- Whether the operation actually mutates the state: drift always does, a
correction only when its vector has length 3 (otherwise it is a no-op). -/
def SatOp.mutates (op : SatOp) : Bool :=
  match op with
  | .drift _ _ _ => true
  | .correct cv => cv.length == 3

def applySatOps (ops : List SatOp) (s : Satellite) : Satellite :=
  ops.foldl (fun t op => op.apply t) s

/-- The clamp invariant of the spec: inclination in `[0, 180]`, eccentricity in
`[0, 0.99]`. -/
def clampedInv (s : Satellite) : Prop :=
  0 ≤ s.inclination ∧ s.inclination ≤ 180 ∧ 0 ≤ s.eccentricity ∧ s.eccentricity ≤ 99/100

instance (s : Satellite) : Decidable (clampedInv s) := by
  unfold clampedInv; infer_instance

/-- The control-loop operations that touch the correction counter. -/
inductive LoopOp where
  | tick (dAlt dInc dEcc : ℚ)
  | applyTarget (a i e : ℚ)
  | correctDefault
  | clearHist
deriving DecidableEq

def LoopOp.apply (op : LoopOp) (app : MainApplication) : MainApplication :=
  match op with
  | .tick dAlt dInc dEcc => app.tick dAlt dInc dEcc
  | .applyTarget a i e => app.on_apply_target a i e
  | .correctDefault => app.correct_orbit_to_default
  | .clearHist => app.clear_history

/-! ### Helper lemmas -/

theorem clip_mem (x lo hi : ℚ) (h : lo ≤ hi) : lo ≤ clip x lo hi ∧ clip x lo hi ≤ hi :=
  ⟨le_min h (le_max_left lo x), min_le_left hi (max lo x)⟩

/-- Any single mutating `Satellite` operation (a drift, or a correction whose
vector has length 3) leaves the state clamped, whatever the input state. -/
theorem satOp_mutates_clamped (op : SatOp) (s : Satellite) (h : op.mutates = true) :
    clampedInv (op.apply s) := by
  cases op with
  | drift dAlt dInc dEcc =>
      refine ⟨(clip_mem (s.inclination + dInc) 0 180 (by norm_num)).1,
              (clip_mem (s.inclination + dInc) 0 180 (by norm_num)).2,
              (clip_mem (s.eccentricity + dEcc) 0 (99/100) (by norm_num)).1,
              (clip_mem (s.eccentricity + dEcc) 0 (99/100) (by norm_num)).2⟩
  | correct cv =>
      have hlen : cv.length = 3 := by simpa [SatOp.mutates] using h
      match cv, hlen with
      | [a, b, c], _ =>
          exact ⟨(clip_mem (s.inclination + b) 0 180 (by norm_num)).1,
                 (clip_mem (s.inclination + b) 0 180 (by norm_num)).2,
                 (clip_mem (s.eccentricity + c) 0 (99/100) (by norm_num)).1,
                 (clip_mem (s.eccentricity + c) 0 (99/100) (by norm_num)).2⟩

theorem applySatOps_append_single (ops : List SatOp) (op : SatOp) (s : Satellite) :
    applySatOps (ops ++ [op]) s = op.apply (applySatOps ops s) := by
  simp [applySatOps, List.foldl_append]

/-- Appending an entry to a telemetry log of positive capacity makes it the
last entry of the log. -/
theorem log_status_getLast (t : TelemetrySystem) (e : TelemetryEntry)
    (h : 0 < t.max_log_size) : (t.log_status e).log.getLast? = some e := by
  unfold TelemetrySystem.log_status
  have hle : t.log.length + 1 - t.max_log_size ≤ t.log.length := by omega
  simp only [List.drop_append_of_le_length hle]
  simp

/-- The squared comparison of `is_on_course` agrees with the comparison the
source makes on the real Euclidean norm: for the positive threshold,
`sqrt (normSq v) < threshold` exactly when `normSq v < threshold²`. -/
theorem is_on_course_iff_norm_lt (target current : Vec3) :
    is_on_course target current = true ↔
      Real.sqrt ((Vec3.normSq (Vec3.sub target current) : ℚ) : ℝ) <
        ((ON_COURSE_THRESHOLD : ℚ) : ℝ) := by
  have ht : (0 : ℝ) < ((ON_COURSE_THRESHOLD : ℚ) : ℝ) := by
    norm_num [ON_COURSE_THRESHOLD]
  rw [is_on_course, decide_eq_true_eq, Real.sqrt_lt' ht, sq]
  constructor
  · intro hlt
    exact_mod_cast hlt
  · intro hlt
    exact_mod_cast hlt

/-! ### The claims -/

/-- C1: for every sequence of drift and correction operations applied to a
`Satellite`, after each operation of the sequence that mutates the state (every
drift, and every correction whose vector has length 3 — a wrong-length
correction is a no-op and performs no mutation), the inclination lies in
`[0, 180]` and the eccentricity lies in `[0, 0.99]`. -/
theorem clamp_invariant_after_each_mutation (s : Satellite) (ops : List SatOp)
    (i : ℕ) (hi : i < ops.length) (hmut : (ops.get ⟨i, hi⟩).mutates = true) :
    clampedInv (applySatOps (ops.take (i + 1)) s) := by
  have htake : ops.take (i + 1) = ops.take i ++ [ops.get ⟨i, hi⟩] := by
    rw [List.take_succ]
    congr 1
    rw [List.getElem?_eq_getElem hi]
    rfl
  rw [htake, applySatOps_append_single]
  exact satOp_mutates_clamped _ _ hmut

/-- Witness for C1: a satellite constructed out of range, hit by one drift,
satisfies the clamp invariant after that mutation. -/
theorem clamp_invariant_after_each_mutation_witness :
    clampedInv (applySatOps (List.take (0 + 1) [SatOp.drift 1 0 0]) (Satellite.init 8000 200 2)) :=
  clamp_invariant_after_each_mutation (Satellite.init 8000 200 2) [SatOp.drift 1 0 0] 0
    (by decide) (by decide)

/-- C3: a fresh `PIDController` with the configured gains `Kp = 1.2`,
`Ki = 0.1`, `Kd = 0.2`, called with target `(8000, 45, 0.2)` and current
`(7990, 45, 0.2)`, sees the error `(10, 0, 0)` and returns the correction
`(15.0, 0, 0)`. -/
theorem pid_first_call_deterministic :
    Vec3.sub ⟨8000, 45, 1/5⟩ ⟨7990, 45, 1/5⟩ = ⟨10, 0, 0⟩ ∧
    ((PIDController.init PID_GAINS_Kp PID_GAINS_Ki PID_GAINS_Kd).compute_correction
        ⟨8000, 45, 1/5⟩ ⟨7990, 45, 1/5⟩).2 = ⟨15, 0, 0⟩ := by
  constructor
  · norm_num [Vec3.sub]
  · norm_num [PIDController.init, PIDController.compute_correction, Vec3.sub, Vec3.add,
      Vec3.smul, Vec3.zero, PID_GAINS_Kp, PID_GAINS_Ki, PID_GAINS_Kd]

/-- C8: a correction vector whose length is not exactly 3 leaves the satellite
state entirely unchanged.  The embedding of `apply_orbital_correction` is a
total function, mirroring that the guard raises nothing. -/
theorem wrong_length_correction_noop (s : Satellite) (cv : List ℚ)
    (h : cv.length ≠ 3) : s.apply_orbital_correction cv = s := by
  rcases cv with _ | ⟨a, _ | ⟨b, _ | ⟨c, _ | ⟨d, tl⟩⟩⟩⟩
  · rfl
  · rfl
  · rfl
  · simp at h
  · rfl

/-- Witness for C8: a length-2 vector applied to an (even out-of-range)
satellite changes nothing. -/
theorem wrong_length_correction_noop_witness :
    (Satellite.init 8000 200 2).apply_orbital_correction [1, 2] = Satellite.init 8000 200 2 :=
  wrong_length_correction_noop (Satellite.init 8000 200 2) [1, 2] (by decide)

/-- C9: the `Satellite` constructor does not clamp.  With initial inclination
200 and eccentricity 2, `get_orbital_parameters` returns the out-of-range
values unchanged, the clamp invariant fails, and the first drift establishes
it. -/
theorem constructor_does_not_clamp :
    (Satellite.init 8000 200 2).get_orbital_parameters = (8000, 200, 2) ∧
    ¬ clampedInv (Satellite.init 8000 200 2) ∧
    clampedInv ((Satellite.init 8000 200 2).simulate_orbital_drift 1 0 0) := by
  refine ⟨rfl, ?_, ?_⟩
  · norm_num [clampedInv, Satellite.init]
  · norm_num [clampedInv, Satellite.init, Satellite.simulate_orbital_drift, clip]

/-- C2: on a tick whose post-drift state is on course (squared error norm
below the squared threshold), the correction step changes nothing: the
satellite ends the tick exactly at its post-drift state, the PID controller
state is untouched (no correction was computed), the counter is unchanged, and
the telemetry entry logged for the tick has `is_on_course = true` and an
absent correction vector. -/
theorem on_course_tick_gating (app : MainApplication) (dAlt dInc dEcc : ℚ)
    (hcap : 0 < app.my_telemetry.max_log_size)
    (h : is_on_course
        (Vec3.ofParams (app.target_altitude, app.target_inclination, app.target_eccentricity))
        (Vec3.ofParams ((app.my_satellite.simulate_orbital_drift dAlt dInc dEcc).get_orbital_parameters)) = true) :
    (app.tick dAlt dInc dEcc).my_satellite = app.my_satellite.simulate_orbital_drift dAlt dInc dEcc ∧
    (app.tick dAlt dInc dEcc).my_controller = app.my_controller ∧
    (app.tick dAlt dInc dEcc).correction_count = app.correction_count ∧
    (app.tick dAlt dInc dEcc).my_telemetry.log.getLast? = some
      { current_orbital_params := (app.my_satellite.simulate_orbital_drift dAlt dInc dEcc).get_orbital_parameters
        target_orbital_params := (app.target_altitude, app.target_inclination, app.target_eccentricity)
        correction_vector := none
        is_on_course := true } := by
  have ht : app.tick dAlt dInc dEcc =
      MainApplication.tick_finish
        { app with my_satellite := app.my_satellite.simulate_orbital_drift dAlt dInc dEcc }
        app.my_satellite.altitude
        ((app.my_satellite.simulate_orbital_drift dAlt dInc dEcc).get_orbital_parameters)
        (app.target_altitude, app.target_inclination, app.target_eccentricity) none true := by
    simp only [MainApplication.tick]
    rw [h]
    simp
  rw [ht]
  exact ⟨rfl, rfl, rfl, log_status_getLast _ _ hcap⟩

/-- Witness for C2: from the initial state, a tick with zero drift is on
course and leaves everything unchanged except the telemetry log. -/
theorem on_course_tick_gating_witness :
    (MainApplication.init.tick 0 0 0).my_satellite =
      MainApplication.init.my_satellite.simulate_orbital_drift 0 0 0 ∧
    (MainApplication.init.tick 0 0 0).my_controller = MainApplication.init.my_controller ∧
    (MainApplication.init.tick 0 0 0).correction_count = MainApplication.init.correction_count ∧
    (MainApplication.init.tick 0 0 0).my_telemetry.log.getLast? = some
      { current_orbital_params :=
          (MainApplication.init.my_satellite.simulate_orbital_drift 0 0 0).get_orbital_parameters
        target_orbital_params :=
          (MainApplication.init.target_altitude, MainApplication.init.target_inclination,
            MainApplication.init.target_eccentricity)
        correction_vector := none
        is_on_course := true } :=
  on_course_tick_gating MainApplication.init 0 0 0 (by decide)
    (by norm_num [MainApplication.init, is_on_course, Vec3.normSq, Vec3.sub, Vec3.ofParams,
      Satellite.init, Satellite.simulate_orbital_drift, Satellite.get_orbital_parameters,
      clip, ON_COURSE_THRESHOLD, TARGET_ALTITUDE, TARGET_INCLINATION, TARGET_ECCENTRICITY])

/-- C10: on a tick where the correction fires, the telemetry entry holds the
post-drift, pre-correction orbital parameters (they are read before
`apply_orbital_correction` runs), so the logged entry does not reflect the
corrected state of that tick. -/
theorem telemetry_logs_pre_correction_params (app : MainApplication) (dAlt dInc dEcc : ℚ)
    (hcap : 0 < app.my_telemetry.max_log_size)
    (h : is_on_course
        (Vec3.ofParams (app.target_altitude, app.target_inclination, app.target_eccentricity))
        (Vec3.ofParams ((app.my_satellite.simulate_orbital_drift dAlt dInc dEcc).get_orbital_parameters)) = false) :
    (app.tick dAlt dInc dEcc).my_telemetry.log.getLast? = some
      { current_orbital_params := (app.my_satellite.simulate_orbital_drift dAlt dInc dEcc).get_orbital_parameters
        target_orbital_params := (app.target_altitude, app.target_inclination, app.target_eccentricity)
        correction_vector := some (Vec3.toList (app.my_controller.compute_correction
          (Vec3.ofParams (app.target_altitude, app.target_inclination, app.target_eccentricity))
          (Vec3.ofParams ((app.my_satellite.simulate_orbital_drift dAlt dInc dEcc).get_orbital_parameters))).2)
        is_on_course := false } := by
  have ht : app.tick dAlt dInc dEcc =
      MainApplication.tick_finish
        { app with
          my_controller := (app.my_controller.compute_correction
            (Vec3.ofParams (app.target_altitude, app.target_inclination, app.target_eccentricity))
            (Vec3.ofParams ((app.my_satellite.simulate_orbital_drift dAlt dInc dEcc).get_orbital_parameters))).1
          my_satellite := (app.my_satellite.simulate_orbital_drift dAlt dInc dEcc).apply_orbital_correction
            (Vec3.toList (app.my_controller.compute_correction
              (Vec3.ofParams (app.target_altitude, app.target_inclination, app.target_eccentricity))
              (Vec3.ofParams ((app.my_satellite.simulate_orbital_drift dAlt dInc dEcc).get_orbital_parameters))).2)
          correction_count := app.correction_count + 1 }
        app.my_satellite.altitude
        ((app.my_satellite.simulate_orbital_drift dAlt dInc dEcc).get_orbital_parameters)
        (app.target_altitude, app.target_inclination, app.target_eccentricity)
        (some (Vec3.toList (app.my_controller.compute_correction
          (Vec3.ofParams (app.target_altitude, app.target_inclination, app.target_eccentricity))
          (Vec3.ofParams ((app.my_satellite.simulate_orbital_drift dAlt dInc dEcc).get_orbital_parameters))).2))
        false := by
    simp only [MainApplication.tick]
    rw [h]
    simp
  rw [ht]
  exact log_status_getLast _ _ hcap

/-- Witness for C10: from the initial state, a tick that drifts the altitude
by 1 km fires a correction, and the telemetry entry holds the post-drift,
pre-correction parameters. -/
theorem telemetry_logs_pre_correction_params_witness :
    (MainApplication.init.tick 1 0 0).my_telemetry.log.getLast? = some
      { current_orbital_params :=
          (MainApplication.init.my_satellite.simulate_orbital_drift 1 0 0).get_orbital_parameters
        target_orbital_params :=
          (MainApplication.init.target_altitude, MainApplication.init.target_inclination,
            MainApplication.init.target_eccentricity)
        correction_vector := some (Vec3.toList (MainApplication.init.my_controller.compute_correction
          (Vec3.ofParams (MainApplication.init.target_altitude, MainApplication.init.target_inclination,
            MainApplication.init.target_eccentricity))
          (Vec3.ofParams ((MainApplication.init.my_satellite.simulate_orbital_drift 1 0 0).get_orbital_parameters))).2)
        is_on_course := false } :=
  telemetry_logs_pre_correction_params MainApplication.init 1 0 0 (by decide)
    (by norm_num [MainApplication.init, is_on_course, Vec3.normSq, Vec3.sub, Vec3.ofParams,
      Satellite.init, Satellite.simulate_orbital_drift, Satellite.get_orbital_parameters,
      clip, ON_COURSE_THRESHOLD, TARGET_ALTITUDE, TARGET_INCLINATION, TARGET_ECCENTRICITY])

/-- Counterexample to C5 as stated: with history recording enabled, a tick
with zero drift is on course (the logged entry has `is_on_course = true` and
no correction vector, and the correction counter stays 0), yet a history entry
is still appended — `main_loop` guards the append only on
`self.recording_history`, not on a correction having fired. -/
theorem history_appended_on_course :
    (({ MainApplication.init with recording_history := true } : MainApplication).tick 0 0 0).correction_count = 0 ∧
    (({ MainApplication.init with recording_history := true } : MainApplication).tick 0 0 0).my_telemetry.log.map
      TelemetryEntry.is_on_course = [true] ∧
    (({ MainApplication.init with recording_history := true } : MainApplication).tick 0 0 0).my_history.drift_history = [0] := by
  refine ⟨?_, ?_, ?_⟩ <;>
    norm_num [MainApplication.init, MainApplication.tick, MainApplication.tick_finish,
      is_on_course, Vec3.normSq, Vec3.sub, Vec3.ofParams,
      Satellite.init, Satellite.simulate_orbital_drift, Satellite.get_orbital_parameters,
      clip, ON_COURSE_THRESHOLD, TARGET_ALTITUDE, TARGET_INCLINATION, TARGET_ECCENTRICITY,
      TelemetrySystem.log_status, TELEMETRY_LOG_MAX_SIZE,
      HistoryRecorder.record_drift, HISTORY_LOG_MAX_SIZE]

/-- C5 amended: on every tick, a history entry carrying the altitude
delta is appended if and only if history recording is enabled — independently
of whether a correction fired on that tick (in particular it is also appended
on on-course ticks). -/
theorem history_appended_iff_recording (app : MainApplication) (dAlt dInc dEcc : ℚ) :
    (app.tick dAlt dInc dEcc).my_history =
      if app.recording_history then
        app.my_history.record_drift
          ((app.tick dAlt dInc dEcc).my_satellite.altitude - app.my_satellite.altitude)
      else app.my_history := by
  cases hb : is_on_course
      (Vec3.ofParams (app.target_altitude, app.target_inclination, app.target_eccentricity))
      (Vec3.ofParams ((app.my_satellite.simulate_orbital_drift dAlt dInc dEcc).get_orbital_parameters)) with
  | true => simp only [MainApplication.tick, MainApplication.tick_finish, hb]; simp
  | false => simp only [MainApplication.tick, MainApplication.tick_finish, hb]; simp

/-- Counterexample to C4 as stated: applying a new target from the GUI resets
the PID controller state and moves the satellite.  After one correction-firing
tick from the initial state, the integral of the controller is `(1, 0, 0)` and the
altitude is `8000.5`; `_on_apply_target 9000 45 0.2` zeroes the integral and
jumps the altitude to 9000. -/
theorem apply_target_not_frame_effect :
    ((MainApplication.init.tick 1 0 0).on_apply_target 9000 45 (1/5)).my_controller.integral ≠
      (MainApplication.init.tick 1 0 0).my_controller.integral ∧
    ((MainApplication.init.tick 1 0 0).on_apply_target 9000 45 (1/5)).my_satellite.altitude ≠
      (MainApplication.init.tick 1 0 0).my_satellite.altitude := by
  constructor <;>
    norm_num [MainApplication.init, MainApplication.tick, MainApplication.tick_finish,
      MainApplication.on_apply_target, PIDController.reset,
      is_on_course, Vec3.normSq, Vec3.sub, Vec3.ofParams, Vec3.add, Vec3.smul, Vec3.toList,
      Vec3.zero, Satellite.init, Satellite.simulate_orbital_drift,
      Satellite.get_orbital_parameters, Satellite.apply_orbital_correction,
      PIDController.init, PIDController.compute_correction,
      clip, ON_COURSE_THRESHOLD, TARGET_ALTITUDE, TARGET_INCLINATION, TARGET_ECCENTRICITY,
      PID_GAINS_Kp, PID_GAINS_Ki, PID_GAINS_Kd]

/-- C4 amended: `_on_apply_target` updates the live target read by the next
tick, and in addition it resets the PID integral and
previous-error state and applies an orbital correction that jumps the
satellite to the new target; it leaves the telemetry and history logs, the
recording flag and the correction counter unchanged. -/
theorem apply_target_effects (app : MainApplication) (a i e : ℚ) :
    (app.on_apply_target a i e).target_altitude = a ∧
    (app.on_apply_target a i e).target_inclination = i ∧
    (app.on_apply_target a i e).target_eccentricity = e ∧
    (app.on_apply_target a i e).my_controller = app.my_controller.reset ∧
    (app.on_apply_target a i e).my_satellite = app.my_satellite.apply_orbital_correction
      [a - app.my_satellite.altitude, i - app.my_satellite.inclination,
        e - app.my_satellite.eccentricity] ∧
    (app.on_apply_target a i e).my_telemetry = app.my_telemetry ∧
    (app.on_apply_target a i e).my_history = app.my_history ∧
    (app.on_apply_target a i e).recording_history = app.recording_history ∧
    (app.on_apply_target a i e).correction_count = app.correction_count :=
  ⟨rfl, rfl, rfl, rfl, rfl, rfl, rfl, rfl, rfl⟩

/-- Counterexample to C6 as stated: for a controller that already carries
state (integral `(1, 0, 0)` after one earlier call), calling
`compute_correction`, then `reset`, then `compute_correction` with the same
arguments does not reproduce the result of the first call: the integral term of the
first call sees the accumulated integral `(2, 0, 0)` and its derivative term
sees a zero error change, giving `1.4`, while the post-reset call gives
`1.5`. -/
theorem reset_recompute_differs_on_nonzero_state :
    ((((((PIDController.init (6/5) (1/10) (1/5)).compute_correction ⟨1, 0, 0⟩ Vec3.zero).1).compute_correction
        ⟨1, 0, 0⟩ Vec3.zero).1.reset).compute_correction ⟨1, 0, 0⟩ Vec3.zero).2 ≠
      ((((PIDController.init (6/5) (1/10) (1/5)).compute_correction ⟨1, 0, 0⟩ Vec3.zero).1).compute_correction
        ⟨1, 0, 0⟩ Vec3.zero).2 := by
  norm_num [PIDController.init, PIDController.compute_correction, PIDController.reset,
    Vec3.sub, Vec3.add, Vec3.smul, Vec3.zero]

/-- C6 amended: for every `PIDController` whose internal state is zero — as
after construction, which is the only state reachable without an intervening
`compute_correction` — computing once, resetting, and computing again with the
same target and current vectors yields the same result as the first call. -/
theorem reset_recompute_matches_first_call (Kp Ki Kd : ℚ) (target current : Vec3) :
    ((((PIDController.init Kp Ki Kd).compute_correction target current).1.reset).compute_correction
        target current).2 =
      ((PIDController.init Kp Ki Kd).compute_correction target current).2 := rfl

/-- Counterexample to C7 as stated: the correction counter is not monotone
across every control-loop operation — `clear_history` (like
`correct_orbit_to_default`) zeroes it.  After one correction-firing tick the
counter is 1; clearing the history drops it back to 0. -/
theorem correction_count_decreases_on_clear :
    ((MainApplication.init.tick 1 0 0).clear_history).correction_count <
      (MainApplication.init.tick 1 0 0).correction_count := by
  norm_num [MainApplication.init, MainApplication.tick, MainApplication.tick_finish,
    MainApplication.clear_history,
    is_on_course, Vec3.normSq, Vec3.sub, Vec3.ofParams, Vec3.add, Vec3.smul, Vec3.toList,
    Vec3.zero, Satellite.init, Satellite.simulate_orbital_drift,
    Satellite.get_orbital_parameters, Satellite.apply_orbital_correction,
    PIDController.init, PIDController.compute_correction,
    clip, ON_COURSE_THRESHOLD, TARGET_ALTITUDE, TARGET_INCLINATION, TARGET_ECCENTRICITY,
    PID_GAINS_Kp, PID_GAINS_Ki, PID_GAINS_Kd]

/-- C7 amended: complete characterization of the correction counter.  It is
incremented exactly on ticks where a correction fires, unchanged by target
applications, and reset to zero by `correct_orbit_to_default` and
`clear_history` (so it is monotone across ticks and target changes only). -/
theorem correction_count_characterization (app : MainApplication) (op : LoopOp) :
    (op.apply app).correction_count =
      match op with
      | .tick dAlt dInc dEcc =>
          if is_on_course
              (Vec3.ofParams (app.target_altitude, app.target_inclination, app.target_eccentricity))
              (Vec3.ofParams ((app.my_satellite.simulate_orbital_drift dAlt dInc dEcc).get_orbital_parameters))
          then app.correction_count
          else app.correction_count + 1
      | .applyTarget _ _ _ => app.correction_count
      | .correctDefault => 0
      | .clearHist => 0 := by
  cases op with
  | tick dAlt dInc dEcc =>
      cases hb : is_on_course
          (Vec3.ofParams (app.target_altitude, app.target_inclination, app.target_eccentricity))
          (Vec3.ofParams ((app.my_satellite.simulate_orbital_drift dAlt dInc dEcc).get_orbital_parameters)) with
      | true => simp only [LoopOp.apply, MainApplication.tick, MainApplication.tick_finish, hb]; simp
      | false => simp only [LoopOp.apply, MainApplication.tick, MainApplication.tick_finish, hb]; simp
  | applyTarget a i e => rfl
  | correctDefault => rfl
  | clearHist => rfl

end CubeSat
